import Mathlib

/-!
Verification of the flipdot sign protocol stack.

This file gives a shallow embedding, in Lean, of the protocol core of the
flipdot repository: the Intel-HEX frame codec (`libs/core/src/frame.rs`), the
message layer (`libs/core/src/message.rs`), sign types
(`libs/core/src/sign_type.rs`), pages (`libs/core/src/page.rs`), the virtual
sign state machine (`libs/testing/src/virtual_sign_bus.rs`) and the
controller's data-send-with-retry routine (`src/sign.rs`).

Machine integers (`u8`, `u16`, `u32`, `usize`) are embedded as `Nat`, with an
explicit `% 2 ^ w` wherever the source performs a wrapping cast or wrapping
arithmetic.  Byte buffers are `List Nat`.  Fallible Rust functions returning
`Result` are embedded as `Except`; a Rust panic (`expect` on a virtual-sign
page load) is embedded as `Option` with `none` for the panic.
-/

namespace Flipdot

instance {ε α : Type _} [DecidableEq ε] [DecidableEq α] :
    DecidableEq (Except ε α) := fun
  | .error e, .error e' => decidable_of_iff (e = e') (by simp)
  | .error _, .ok _ => isFalse (by intro h; cases h)
  | .ok _, .error _ => isFalse (by intro h; cases h)
  | .ok a, .ok b => decidable_of_iff (a = b) (by simp)

/-! ### Frame codec (`libs/core/src/frame.rs`) -/

/-- Errors of the frame codec (`FrameError`).  The `Io` variant only wraps
transport failures which have no shallow embedding and is omitted; none of the
embedded functions produce it. -/
inductive FrameError where
  | DataTooLong (max actual : Nat)
  | InvalidFrame (data : List Nat)
  | FrameDataMismatch (data : List Nat) (expected actual : Nat)
  | BadChecksum (data : List Nat) (expected actual : Nat)
deriving DecidableEq, Repr

/-- Embeds `Data::try_new`: wraps a byte buffer, enforcing length ≤ 255 (`0xFF`). -/
def dataTryNew (data : List Nat) : Except FrameError (List Nat) :=
  if data.length > 0xFF then
    .error (.DataTooLong 0xFF data.length)
  else
    .ok data

/-- Embeds `Frame`: address (`u16`), message type (`u8`) and data (≤ 255 bytes). -/
structure Frame where
  address : Nat
  messageType : Nat
  data : List Nat
deriving DecidableEq, Repr

/-- Well-formedness of a frame: fields within their Rust integer ranges and
the `Data` length invariant. -/
def Frame.WF (f : Frame) : Prop :=
  f.address < 65536 ∧ f.messageType < 256 ∧ (∀ b ∈ f.data, b < 256) ∧
    f.data.length ≤ 255

instance (f : Frame) : Decidable f.WF := by
  unfold Frame.WF; infer_instance

/-- Embeds `checksum`: longitudinal redundancy check, a `u8` wrapping subtraction of
every byte from 0 (`fold(0, |acc, &b| acc.wrapping_sub(b))`). -/
def checksum (bytes : List Nat) : Nat :=
  bytes.foldl (fun acc b => (acc + (256 - b % 256)) % 256) 0

/-- Embeds `Frame::payload`: the numeric fields the checksum covers, in order
`len ‖ addr_hi ‖ addr_lo ‖ msg_type ‖ data`.  The `as u8` casts of the source
appear as `% 256`. -/
def Frame.payload (f : Frame) : List Nat :=
  f.data.length % 256 :: (f.address / 256) % 256 :: f.address % 256 ::
    f.messageType :: f.data

/-- One character of the `HEX_DIGITS` table `b"0123456789ABCDEF"`, as the
ASCII code of the digit at index `n` (meaningful for `n < 16`). -/
def hexDigitChar (n : Nat) : Nat :=
  if n < 10 then 48 + n else 55 + n

/-- The two ASCII characters emitted for one payload byte: high nibble
(`byte >> 4`) then low nibble (`byte & 0x0F`). -/
def encByte (b : Nat) : List Nat :=
  [hexDigitChar (b / 16), hexDigitChar (b % 16)]

/-- ASCII-hex encoding of a byte list, two characters per byte. -/
def hexEncode : List Nat → List Nat
  | [] => []
  | b :: rest => encByte b ++ hexEncode rest

/-- Embeds `Frame::to_bytes`: a colon, then the hex encoding of the payload with the
checksum appended. -/
def Frame.to_bytes (f : Frame) : List Nat :=
  58 :: hexEncode (f.payload ++ [checksum f.payload])

/-- Embeds `Frame::to_bytes_with_newline`: `to_bytes` followed by `"\r\n"`. -/
def Frame.to_bytes_with_newline (f : Frame) : List Nat :=
  f.to_bytes ++ [13, 10]

/-- Embeds `[[:xdigit:]]`: ASCII codes of `0-9`, `A-F`, `a-f`. -/
def isHexDigit (c : Nat) : Bool :=
  (48 ≤ c && c ≤ 57) || (65 ≤ c && c ≤ 70) || (97 ≤ c && c ≤ 102)

/-- Numeric value of one ASCII hex character (meaningful on hex digits). -/
def hexVal (c : Nat) : Nat :=
  if c ≤ 57 then c - 48 else if c ≤ 70 then c - 55 else c - 87

/-- Embeds `parse_hex`: value of a big-endian ASCII hex digit string
(`from_str_radix(s, 16)`). -/
def parseHexNat (cs : List Nat) : Nat :=
  cs.foldl (fun acc c => 16 * acc + hexVal c) 0

/-- Embeds `data_bytes.chunks(2).map(parse_hex::<u8>)`: decode consecutive pairs of
hex characters into bytes. -/
def hexPairsToBytes : List Nat → List Nat
  | c1 :: c2 :: rest => (16 * hexVal c1 + hexVal c2) :: hexPairsToBytes rest
  | _ => []

/-- The optional `(?:\r\n)?$` at the end of the frame regex: strip one
trailing `"\r\n"` if present. -/
def stripNewline (l : List Nat) : List Nat :=
  if l.reverse.take 2 = [10, 13] then l.dropLast.dropLast else l

/-- The frame regex
`^:(H{2})(H{4})(H{2})((?:H{2})*)(H{2})$` applied after `stripNewline`:
a colon followed by an even number (at least 10) of hex digits.  On success
returns the captured groups
`(data_len, address, message_type, data bytes, checksum)`. -/
def parseFrameBody (l : List Nat) : Option (Nat × Nat × Nat × List Nat × Nat) :=
  match l with
  | c :: core =>
    if c = 58 ∧ core.all isHexDigit ∧ core.length % 2 = 0 ∧ 10 ≤ core.length then
      some (parseHexNat (core.take 2),
            parseHexNat ((core.drop 2).take 4),
            parseHexNat ((core.drop 6).take 2),
            hexPairsToBytes ((core.drop 8).take (core.length - 10)),
            parseHexNat (core.drop (core.length - 2)))
    else none
  | [] => none

/-- Embeds `Frame::from_bytes`: match the regex, check the declared data length
against the observed one, rebuild the frame, and check the checksum. -/
def Frame.from_bytes (input : List Nat) : Except FrameError Frame :=
  match parseFrameBody (stripNewline input) with
  | none => .error (.InvalidFrame input)
  | some (dataLen, address, messageType, data, provided) =>
    if data.length ≠ dataLen then
      .error (.FrameDataMismatch input dataLen data.length)
    else
      match dataTryNew data with
      | .error e => .error e
      | .ok d =>
        let frame : Frame := ⟨address, messageType, d⟩
        let computed := checksum frame.payload
        if computed ≠ provided then
          .error (.BadChecksum input provided computed)
        else
          .ok frame

/-! #### Lemmas about the hex encoding -/

theorem hexVal_hexDigitChar {n : Nat} (h : n < 16) :
    hexVal (hexDigitChar n) = n := by
  unfold hexVal hexDigitChar
  split_ifs <;> omega

theorem isHexDigit_hexDigitChar {n : Nat} (h : n < 16) :
    isHexDigit (hexDigitChar n) = true := by
  unfold isHexDigit hexDigitChar
  split_ifs <;> simp <;> omega

theorem parseHexNat_encByte {b : Nat} (h : b < 256) :
    parseHexNat (encByte b) = b := by
  have hd : b / 16 < 16 := by omega
  have hm : b % 16 < 16 := Nat.mod_lt _ (by omega)
  simp [parseHexNat, encByte, List.foldl, hexVal_hexDigitChar hd,
    hexVal_hexDigitChar hm]
  omega

theorem parseHexNat_encByte_pair {a b : Nat} (ha : a < 256) (hb : b < 256) :
    parseHexNat (encByte a ++ encByte b) = 256 * a + b := by
  have ha1 : a / 16 < 16 := by omega
  have ha2 : a % 16 < 16 := Nat.mod_lt _ (by omega)
  have hb1 : b / 16 < 16 := by omega
  have hb2 : b % 16 < 16 := Nat.mod_lt _ (by omega)
  simp [parseHexNat, encByte, List.foldl, hexVal_hexDigitChar ha1,
    hexVal_hexDigitChar ha2, hexVal_hexDigitChar hb1, hexVal_hexDigitChar hb2]
  omega

theorem encByte_length (b : Nat) : (encByte b).length = 2 := rfl

theorem hexEncode_append (xs ys : List Nat) :
    hexEncode (xs ++ ys) = hexEncode xs ++ hexEncode ys := by
  induction xs with
  | nil => rfl
  | cons b rest ih => simp [hexEncode, ih]

theorem hexEncode_length (xs : List Nat) :
    (hexEncode xs).length = 2 * xs.length := by
  induction xs with
  | nil => rfl
  | cons b rest ih => simp [hexEncode, encByte, ih]; omega

theorem hexEncode_all_hex {xs : List Nat} (h : ∀ b ∈ xs, b < 256) :
    (hexEncode xs).all isHexDigit = true := by
  induction xs with
  | nil => rfl
  | cons b rest ih =>
    have hb : b < 256 := h b (by simp)
    have h1 : b / 16 < 16 := by omega
    have h2 : b % 16 < 16 := Nat.mod_lt _ (by omega)
    simp only [hexEncode, encByte, List.all_append]
    rw [ih (fun x hx => h x (by simp [hx]))]
    simp [isHexDigit_hexDigitChar h1, isHexDigit_hexDigitChar h2]

theorem hexPairsToBytes_hexEncode {xs : List Nat} (h : ∀ b ∈ xs, b < 256) :
    hexPairsToBytes (hexEncode xs) = xs := by
  induction xs with
  | nil => rfl
  | cons b rest ih =>
    have hb : b < 256 := h b (by simp)
    have h1 : b / 16 < 16 := by omega
    have h2 : b % 16 < 16 := Nat.mod_lt _ (by omega)
    simp only [hexEncode, encByte, List.cons_append, List.nil_append,
      hexPairsToBytes, List.append_eq, List.append_nil]
    rw [ih (fun x hx => h x (by simp [hx]))]
    rw [hexVal_hexDigitChar h1, hexVal_hexDigitChar h2]
    congr 1
    omega

theorem reverse_take_two (xs : List Nat) (a b : Nat) :
    ((xs ++ [a, b]).reverse.take 2) = [b, a] := by
  have : xs ++ [a, b] = xs ++ ([a] ++ [b]) := by simp
  rw [this, ← List.append_assoc, List.reverse_append, List.reverse_append]
  rfl

theorem dropLast_two (xs : List Nat) (a b : Nat) :
    (xs ++ [a, b]).dropLast.dropLast = xs := by
  have : xs ++ [a, b] = (xs ++ [a]) ++ [b] := by simp
  rw [this, List.dropLast_concat, List.dropLast_concat]

theorem checksum_foldl_lt (l : List Nat) :
    ∀ acc, acc < 256 →
      l.foldl (fun acc b => (acc + (256 - b % 256)) % 256) acc < 256 := by
  induction l with
  | nil => intro acc h; simpa using h
  | cons b rest ih =>
    intro acc h
    simp only [List.foldl_cons]
    exact ih _ (Nat.mod_lt _ (by omega))

theorem checksum_lt (l : List Nat) : checksum l < 256 :=
  checksum_foldl_lt l 0 (by omega)

/-- Parsing the hex encoding of a five-plus-byte payload recovers every
captured group. -/
theorem parseFrameBody_hexEncode (p0 p1 p2 p3 ck : Nat) (data : List Nat)
    (h0 : p0 < 256) (h1 : p1 < 256) (h2 : p2 < 256) (h3 : p3 < 256)
    (hck : ck < 256) (hd : ∀ b ∈ data, b < 256) :
    parseFrameBody (58 :: hexEncode ((p0 :: p1 :: p2 :: p3 :: data) ++ [ck])) =
      some (p0, 256 * p1 + p2, p3, data, ck) := by
  have hall : ∀ b ∈ (p0 :: p1 :: p2 :: p3 :: data) ++ [ck], b < 256 := by
    intro b hb
    simp only [List.mem_append, List.mem_cons, List.not_mem_nil,
      or_false] at hb
    rcases hb with (rfl | rfl | rfl | rfl | hb) | rfl <;>
      first | assumption | exact hd _ hb
  have hcore : hexEncode ((p0 :: p1 :: p2 :: p3 :: data) ++ [ck]) =
      encByte p0 ++ (encByte p1 ++ (encByte p2 ++ (encByte p3 ++
        (hexEncode data ++ encByte ck)))) := by
    simp [hexEncode, hexEncode_append, List.append_assoc]
  have hlen : (hexEncode ((p0 :: p1 :: p2 :: p3 :: data) ++ [ck])).length =
      10 + 2 * data.length := by
    rw [hexEncode_length]; simp; omega
  simp only [parseFrameBody]
  rw [if_pos]
  · congr 1
    rw [hlen, hcore]
    have e2 : (encByte p0).length = 2 := rfl
    have tk2 : (encByte p0 ++ (encByte p1 ++ (encByte p2 ++ (encByte p3 ++
        (hexEncode data ++ encByte ck))))).take 2 = encByte p0 :=
      List.take_left' e2
    have dp2 : (encByte p0 ++ (encByte p1 ++ (encByte p2 ++ (encByte p3 ++
        (hexEncode data ++ encByte ck))))).drop 2 =
        encByte p1 ++ (encByte p2 ++ (encByte p3 ++
          (hexEncode data ++ encByte ck))) :=
      List.drop_left' e2
    have tk4 : (encByte p1 ++ (encByte p2 ++ (encByte p3 ++
        (hexEncode data ++ encByte ck)))).take 4 = encByte p1 ++ encByte p2 := by
      rw [show encByte p1 ++ (encByte p2 ++ (encByte p3 ++
          (hexEncode data ++ encByte ck))) =
        (encByte p1 ++ encByte p2) ++ (encByte p3 ++
          (hexEncode data ++ encByte ck)) by simp [List.append_assoc]]
      exact List.take_left' rfl
    have dp6 : (encByte p0 ++ (encByte p1 ++ (encByte p2 ++ (encByte p3 ++
        (hexEncode data ++ encByte ck))))).drop 6 =
        encByte p3 ++ (hexEncode data ++ encByte ck) := by
      rw [show encByte p0 ++ (encByte p1 ++ (encByte p2 ++ (encByte p3 ++
          (hexEncode data ++ encByte ck)))) =
        (encByte p0 ++ encByte p1 ++ encByte p2) ++ (encByte p3 ++
          (hexEncode data ++ encByte ck)) by simp [List.append_assoc]]
      exact List.drop_left' rfl
    have tk62 : (encByte p3 ++ (hexEncode data ++ encByte ck)).take 2 =
        encByte p3 := List.take_left' rfl
    have dp8 : (encByte p0 ++ (encByte p1 ++ (encByte p2 ++ (encByte p3 ++
        (hexEncode data ++ encByte ck))))).drop 8 =
        hexEncode data ++ encByte ck := by
      rw [show encByte p0 ++ (encByte p1 ++ (encByte p2 ++ (encByte p3 ++
          (hexEncode data ++ encByte ck)))) =
        (encByte p0 ++ encByte p1 ++ encByte p2 ++ encByte p3) ++
          (hexEncode data ++ encByte ck) by simp [List.append_assoc]]
      exact List.drop_left' rfl
    have tkdata : (hexEncode data ++ encByte ck).take (10 + 2 * data.length - 10) =
        hexEncode data := by
      rw [show 10 + 2 * data.length - 10 = 2 * data.length by omega]
      exact List.take_left' (hexEncode_length data)
    have dplast : (encByte p0 ++ (encByte p1 ++ (encByte p2 ++ (encByte p3 ++
        (hexEncode data ++ encByte ck))))).drop (10 + 2 * data.length - 2) =
        encByte ck := by
      rw [show encByte p0 ++ (encByte p1 ++ (encByte p2 ++ (encByte p3 ++
          (hexEncode data ++ encByte ck)))) =
        (encByte p0 ++ encByte p1 ++ encByte p2 ++ encByte p3 ++
          hexEncode data) ++ encByte ck by simp [List.append_assoc]]
      apply List.drop_left'
      simp [List.length_append, hexEncode_length, encByte_length]
      omega
    rw [tk2, dp2, tk4, dp6, tk62, dp8, tkdata, dplast]
    rw [parseHexNat_encByte h0, parseHexNat_encByte_pair h1 h2,
      parseHexNat_encByte h3, parseHexNat_encByte hck,
      hexPairsToBytes_hexEncode hd]
  · refine ⟨?_, hexEncode_all_hex hall, by rw [hlen]; omega, by rw [hlen]; omega⟩
    trivial

/-- A colon followed by hex digits never ends in `"\r\n"`, so `stripNewline`
leaves it unchanged. -/
theorem stripNewline_all_hex {core : List Nat}
    (h : core.all isHexDigit = true) :
    stripNewline (58 :: core) = 58 :: core := by
  unfold stripNewline
  rw [if_neg]
  intro hc
  have h10 : (10 : Nat) ∈ (58 :: core).reverse.take 2 := by rw [hc]; simp
  have h10' : (10 : Nat) ∈ (58 :: core) :=
    List.mem_reverse.mp (List.mem_of_mem_take h10)
  simp only [List.mem_cons] at h10'
  rcases h10' with h58 | hcore
  · omega
  · have := List.all_eq_true.mp h _ hcore
    simp [isHexDigit] at this

/-- Lemma: `stripNewline` removes a trailing `"\r\n"`. -/
theorem stripNewline_crlf (xs : List Nat) :
    stripNewline (xs ++ [13, 10]) = xs := by
  unfold stripNewline
  rw [if_pos (reverse_take_two xs 13 10), dropLast_two]

/-- The payload bytes of a well-formed frame are all bytes. -/
theorem payload_all_lt {f : Frame} (h : f.WF) : ∀ b ∈ f.payload, b < 256 := by
  obtain ⟨ha, hm, hd, hl⟩ := h
  intro b hb
  simp only [Frame.payload, List.mem_cons] at hb
  rcases hb with rfl | rfl | rfl | rfl | hb
  · exact Nat.mod_lt _ (by omega)
  · exact Nat.mod_lt _ (by omega)
  · exact Nat.mod_lt _ (by omega)
  · exact hm
  · exact hd _ hb

/-- If the regex stage recovers exactly a frame's fields and checksum, then
`from_bytes` succeeds with that frame. -/
theorem from_bytes_of_parse {input : List Nat} {f : Frame}
    (hparse : parseFrameBody (stripNewline input) =
      some (f.data.length, f.address, f.messageType, f.data,
        checksum f.payload))
    (hl : f.data.length ≤ 255) :
    Frame.from_bytes input = .ok f := by
  unfold Frame.from_bytes
  rw [hparse]
  have h255 : ¬ (f.data.length > 0xFF) := by omega
  simp [dataTryNew, h255]

/-- The hex-encoded payload-plus-checksum of a well-formed frame, all
characters are hex digits. -/
theorem to_bytes_core_all_hex {f : Frame} (h : f.WF) :
    (hexEncode (f.payload ++ [checksum f.payload])).all isHexDigit = true := by
  apply hexEncode_all_hex
  intro b hb
  simp only [List.mem_append, List.mem_cons, List.not_mem_nil, or_false] at hb
  rcases hb with hb | rfl
  · exact payload_all_lt h _ hb
  · exact checksum_lt _

/-- Parsing the wire form of a well-formed frame recovers its fields. -/
theorem parse_to_bytes_core {f : Frame} (h : f.WF) :
    parseFrameBody f.to_bytes =
      some (f.data.length, f.address, f.messageType, f.data,
        checksum f.payload) := by
  obtain ⟨ha, hm, hd, hl⟩ := h
  have hpay : f.payload =
      (f.data.length % 256) :: ((f.address / 256) % 256) ::
        (f.address % 256) :: f.messageType :: f.data := rfl
  rw [Frame.to_bytes, hpay]
  rw [parseFrameBody_hexEncode _ _ _ _ _ _ (Nat.mod_lt _ (by omega))
    (Nat.mod_lt _ (by omega)) (Nat.mod_lt _ (by omega)) hm
    (by rw [← hpay]; exact checksum_lt _) hd]
  have haddr : 256 * ((f.address / 256) % 256) + f.address % 256 = f.address := by
    omega
  have hdl : f.data.length % 256 = f.data.length := Nat.mod_eq_of_lt (by omega)
  rw [haddr, hdl]

theorem from_bytes_to_bytes {f : Frame} (h : f.WF) :
    Frame.from_bytes f.to_bytes = .ok f := by
  apply from_bytes_of_parse _ h.2.2.2
  have hcore := stripNewline_all_hex (to_bytes_core_all_hex h)
  rw [show (58 : Nat) :: hexEncode (f.payload ++ [checksum f.payload]) =
    f.to_bytes from rfl] at hcore
  rw [hcore]
  exact parse_to_bytes_core h

theorem from_bytes_to_bytes_with_newline {f : Frame} (h : f.WF) :
    Frame.from_bytes f.to_bytes_with_newline = .ok f := by
  apply from_bytes_of_parse _ h.2.2.2
  rw [Frame.to_bytes_with_newline, stripNewline_crlf]
  exact parse_to_bytes_core h

/-! ### Claims C1 and C7 -/

/-- C1: for every frame `f` whose fields are in range and whose data is at
most 255 bytes, `Frame::from_bytes` applied to `f.to_bytes()` returns
`Ok(f)`, and applied to `f.to_bytes_with_newline()` also returns `Ok(f)`. -/
theorem C1_frame_codec_roundtrip (f : Frame) (h : f.WF) :
    Frame.from_bytes f.to_bytes = .ok f ∧
    Frame.from_bytes f.to_bytes_with_newline = .ok f :=
  ⟨from_bytes_to_bytes h, from_bytes_to_bytes_with_newline h⟩

theorem C1_frame_codec_roundtrip_witness :
    Frame.from_bytes (Frame.to_bytes ⟨2, 1, [3, 31]⟩) = .ok ⟨2, 1, [3, 31]⟩ ∧
    Frame.from_bytes (Frame.to_bytes_with_newline ⟨2, 1, [3, 31]⟩) =
      .ok ⟨2, 1, [3, 31]⟩ :=
  C1_frame_codec_roundtrip ⟨2, 1, [3, 31]⟩ (by decide)

/-- C7: `Data::try_new(v)` succeeds (returning exactly the bytes `v`) if and
only if `v` is at most 255 bytes long; otherwise it fails with
`DataTooLong{max: 255, actual: len(v)}`. -/
theorem C7_data_try_new_spec (v : List Nat) :
    (dataTryNew v = .ok v ↔ v.length ≤ 255) ∧
    (v.length > 255 → dataTryNew v = .error (.DataTooLong 255 v.length)) := by
  unfold dataTryNew
  by_cases h : v.length > 0xFF
  · rw [if_pos h]
    refine ⟨⟨?_, ?_⟩, ?_⟩
    · intro hc; cases hc
    · intro hc; omega
    · intro _; rfl
  · rw [if_neg h]
    refine ⟨⟨?_, ?_⟩, ?_⟩
    · intro _; omega
    · intro _; rfl
    · intro hc; omega

theorem C7_data_try_new_spec_witness :
    (dataTryNew [1, 2, 3] = .ok [1, 2, 3] ↔ (3 : Nat) ≤ 255) ∧
    dataTryNew (List.replicate 256 0) =
      .error (.DataTooLong 255 256) := by
  refine ⟨(C7_data_try_new_spec [1, 2, 3]).1, ?_⟩
  have h := (C7_data_try_new_spec (List.replicate 256 0)).2
    (by rw [List.length_replicate]; omega)
  rw [List.length_replicate] at h
  exact h

/-! ### Claim C8: the error taxonomy of `Frame::from_bytes` -/

/-- The frame grammar of the specification (§6):
`':' H{2} H{4} H{2} (H{2})* H{2} ("\r\n")?` — a colon, then `10 + 2k` hex
digits (data length, address, message type, `k` data pairs, checksum), then an
optional CRLF. -/
def MatchesFrameGrammar (input : List Nat) : Prop :=
  ∃ body tail k, (tail = [] ∨ tail = [13, 10]) ∧
    input = 58 :: (body ++ tail) ∧ body.all isHexDigit = true ∧
    body.length = 10 + 2 * k

theorem hexVal_lt {c : Nat} (h : isHexDigit c = true) : hexVal c < 16 := by
  unfold isHexDigit at h
  unfold hexVal
  split_ifs <;> simp at h <;> omega

theorem parseHexNat_two_lt {cs : List Nat} (hlen : cs.length = 2)
    (hhex : ∀ c ∈ cs, isHexDigit c = true) : parseHexNat cs < 256 := by
  match cs, hlen with
  | [c1, c2], _ =>
    have h1 := hexVal_lt (hhex c1 (by simp))
    have h2 := hexVal_lt (hhex c2 (by simp))
    simp only [parseHexNat, List.foldl]
    omega

/-- On a successful regex match, the declared data length is a byte. -/
theorem parse_dataLen_lt {l : List Nat} {r : Nat × Nat × Nat × List Nat × Nat}
    (h : parseFrameBody l = some r) : r.1 < 256 := by
  match l with
  | [] => exact absurd h (by simp [parseFrameBody])
  | c :: core =>
    rw [parseFrameBody] at h
    by_cases hc : c = 58 ∧ core.all isHexDigit = true ∧
        core.length % 2 = 0 ∧ 10 ≤ core.length
    · rw [if_pos hc] at h
      obtain ⟨-, hhex, -, hge⟩ := hc
      cases h
      apply parseHexNat_two_lt
      · rw [List.length_take]; omega
      · intro x hx
        exact List.all_eq_true.mp hhex _ (List.mem_of_mem_take hx)
    · rw [if_neg hc] at h
      cases h

/-- A successful regex match forces the shape of its input. -/
theorem parse_some_shape {l : List Nat} {r : Nat × Nat × Nat × List Nat × Nat}
    (h : parseFrameBody l = some r) :
    ∃ core, l = 58 :: core ∧ core.all isHexDigit = true ∧
      core.length % 2 = 0 ∧ 10 ≤ core.length := by
  match l with
  | [] => exact absurd h (by simp [parseFrameBody])
  | c :: core =>
    rw [parseFrameBody] at h
    by_cases hc : c = 58 ∧ core.all isHexDigit = true ∧
        core.length % 2 = 0 ∧ 10 ≤ core.length
    · exact ⟨core, by rw [hc.1], hc.2⟩
    · rw [if_neg hc] at h
      cases h

theorem take_two_shape {l : List Nat} {a b : Nat} (h : l.take 2 = [a, b]) :
    ∃ t, l = a :: b :: t := by
  match l with
  | [] => simp at h
  | [x] => simp at h
  | x :: y :: t =>
    simp only [List.take] at h
    cases h
    exact ⟨t, rfl⟩

/-- The regex stage (after newline stripping) succeeds exactly on inputs
matching the frame grammar. -/
theorem parse_some_iff_grammar (input : List Nat) :
    (∃ r, parseFrameBody (stripNewline input) = some r) ↔
      MatchesFrameGrammar input := by
  constructor
  · rintro ⟨r, hr⟩
    unfold stripNewline at hr
    split_ifs at hr with hnl
    · obtain ⟨core, hcore, hhex, heven, hge⟩ := parse_some_shape hr
      obtain ⟨t, ht⟩ := take_two_shape hnl
      have hinput : input = t.reverse ++ [13, 10] := by
        have h2 := congrArg List.reverse ht
        simpa using h2
      have hdrop : input.dropLast.dropLast = t.reverse := by
        rw [hinput, dropLast_two]
      rw [hdrop] at hcore
      refine ⟨core, [13, 10], (core.length - 10) / 2, Or.inr rfl, ?_, hhex,
        by omega⟩
      rw [hinput, hcore]
      simp
    · obtain ⟨core, hcore, hhex, heven, hge⟩ := parse_some_shape hr
      exact ⟨core, [], (core.length - 10) / 2, Or.inl rfl,
        by rw [hcore]; simp, hhex, by omega⟩
  · rintro ⟨body, tail, k, htail, hinput, hhex, hlen⟩
    have hparse : parseFrameBody (58 :: body) =
        some (parseHexNat (body.take 2),
          parseHexNat ((body.drop 2).take 4),
          parseHexNat ((body.drop 6).take 2),
          hexPairsToBytes ((body.drop 8).take (body.length - 10)),
          parseHexNat (body.drop (body.length - 2))) := by
      rw [parseFrameBody, if_pos ⟨rfl, hhex, by omega, by omega⟩]
    rcases htail with rfl | rfl
    · rw [hinput]
      simp only [List.append_nil]
      rw [stripNewline_all_hex hhex]
      exact ⟨_, hparse⟩
    · rw [hinput]
      rw [show (58 : Nat) :: (body ++ [13, 10]) =
        (58 :: body) ++ [13, 10] by simp]
      rw [stripNewline_crlf]
      exact ⟨_, hparse⟩

/-- C8: `Frame::from_bytes` returns `InvalidFrame` (carrying a copy of the
input) exactly when the input does not match the frame grammar; on a grammar
match it returns `FrameDataMismatch{expected, actual}` when the declared data
length differs from the number of data byte pairs, else
`BadChecksum{expected, actual}` when the computed checksum differs from the
declared one; only inputs passing all three checks produce an `Ok` frame. -/
theorem C8_from_bytes_error_taxonomy (input : List Nat) :
    (Frame.from_bytes input = .error (.InvalidFrame input) ↔
      ¬ MatchesFrameGrammar input) ∧
    (∀ dataLen address messageType data ck,
      parseFrameBody (stripNewline input) =
          some (dataLen, address, messageType, data, ck) →
      (data.length ≠ dataLen →
        Frame.from_bytes input =
          .error (.FrameDataMismatch input dataLen data.length)) ∧
      (data.length = dataLen →
        checksum (Frame.payload ⟨address, messageType, data⟩) ≠ ck →
        Frame.from_bytes input = .error (.BadChecksum input ck
          (checksum (Frame.payload ⟨address, messageType, data⟩)))) ∧
      (data.length = dataLen →
        checksum (Frame.payload ⟨address, messageType, data⟩) = ck →
        Frame.from_bytes input = .ok ⟨address, messageType, data⟩)) ∧
    (∀ f, Frame.from_bytes input = .ok f →
      MatchesFrameGrammar input ∧ f.data.length ≤ 255 ∧
      parseFrameBody (stripNewline input) =
        some (f.data.length, f.address, f.messageType, f.data,
          checksum f.payload)) := by
  refine ⟨⟨?_, ?_⟩, ?_, ?_⟩
  · intro h hg
    obtain ⟨r, hr⟩ := (parse_some_iff_grammar input).mpr hg
    rcases r with ⟨dl, a, mt, d, ck⟩
    unfold Frame.from_bytes at h
    rw [hr] at h
    dsimp only at h
    unfold dataTryNew at h
    split_ifs at h <;> simp at h
    split_ifs at h <;> simp at h
  · intro hng
    have hnone : parseFrameBody (stripNewline input) = none := by
      cases hpp : parseFrameBody (stripNewline input) with
      | none => rfl
      | some r =>
        exact absurd ((parse_some_iff_grammar input).mp ⟨r, hpp⟩) hng
    unfold Frame.from_bytes
    rw [hnone]
  · intro dl a mt d ck hr
    have hdl : dl < 256 := parse_dataLen_lt hr
    refine ⟨?_, ?_, ?_⟩
    · intro hne
      unfold Frame.from_bytes
      rw [hr]
      dsimp only
      rw [if_pos hne]
    · intro heq hcs
      unfold Frame.from_bytes
      rw [hr]
      dsimp only
      rw [if_neg (by omega)]
      have hok : dataTryNew d = .ok d := by
        unfold dataTryNew
        rw [if_neg (by omega)]
      rw [hok]
      dsimp only
      rw [if_pos hcs]
    · intro heq hcs
      unfold Frame.from_bytes
      rw [hr]
      dsimp only
      rw [if_neg (by omega)]
      have hok : dataTryNew d = .ok d := by
        unfold dataTryNew
        rw [if_neg (by omega)]
      rw [hok]
      dsimp only
      rw [if_neg (by intro hcc; exact hcc hcs)]
  · intro f hok
    cases hp : parseFrameBody (stripNewline input) with
    | none =>
      unfold Frame.from_bytes at hok
      rw [hp] at hok
      cases hok
    | some r =>
      have hg := (parse_some_iff_grammar input).mp ⟨r, hp⟩
      rcases r with ⟨dl, a, mt, d, ck⟩
      unfold Frame.from_bytes at hok
      rw [hp] at hok
      dsimp only at hok
      unfold dataTryNew at hok
      split_ifs at hok with h1 h2 <;> simp at hok
      split_ifs at hok with h3 <;> simp at hok
      subst hok
      dsimp only
      refine ⟨hg, by omega, ?_⟩
      simp only [Option.some.injEq, Prod.mk.injEq]
      exact ⟨by omega, trivial, trivial, trivial, h3.symm⟩

theorem C8_from_bytes_error_taxonomy_witness :
    Frame.from_bytes [58, 48, 48, 48, 48, 55, 70, 48, 50, 48, 48, 55, 70] =
      .error (.FrameDataMismatch
        [58, 48, 48, 48, 48, 55, 70, 48, 50, 48, 48, 55, 70] 0 1) :=
  ((C8_from_bytes_error_taxonomy
      [58, 48, 48, 48, 48, 55, 70, 48, 50, 48, 48, 55, 70]).2.1
    0 127 2 [0] 127 (by decide)).1 (by decide)

/-! ### Message layer (`libs/core/src/message.rs`) -/

/-- Sign lifecycle states (`State`).  The hidden `__Nonexhaustive` marker of
the source is never constructed and is omitted. -/
inductive SignState where
  | Unconfigured
  | ConfigInProgress
  | ConfigReceived
  | ConfigFailed
  | PixelsInProgress
  | PixelsReceived
  | PixelsFailed
  | PageLoaded
  | PageLoadInProgress
  | PageShown
  | PageShowInProgress
  | ReadyToReset
deriving DecidableEq, Repr

/-- Requestable operations (`Operation`).  The hidden `__Nonexhaustive`
marker of the source is never constructed and is omitted. -/
inductive SignOp where
  | ReceiveConfig
  | ReceivePixels
  | ShowLoadedPage
  | LoadNextPage
  | StartReset
  | FinishReset
deriving DecidableEq, Repr

/-- Protocol messages (`Message`).  `Offset`, `ChunkCount` and `Address`
newtypes are embedded as their underlying `Nat`; the hidden
`__Nonexhaustive` marker of the source is never constructed and is
omitted. -/
inductive Message where
  | SendData (offset : Nat) (data : List Nat)
  | DataChunksSent (count : Nat)
  | Hello (addr : Nat)
  | QueryState (addr : Nat)
  | ReportState (addr : Nat) (state : SignState)
  | RequestOperation (addr : Nat) (op : SignOp)
  | AckOperation (addr : Nat) (op : SignOp)
  | PixelsComplete (addr : Nat)
  | Goodbye (addr : Nat)
  | Unknown (frame : Frame)
deriving DecidableEq, Repr

/-- Embeds `impl From<Frame> for Message`: dispatch on the data length, then on the
message type and the single data byte (the inner `match` of the source on
`(message_type, data[0])` pairs becomes a chain of guarded cases in source
order). -/
def messageOfFrame (f : Frame) : Message :=
  match f.data with
  | [] =>
    if f.messageType = 1 then .DataChunksSent f.address else .Unknown f
  | [d0] =>
    if f.messageType = 2 ∧ d0 = 0xFF then .Hello f.address
    else if f.messageType = 2 ∧ d0 = 0x00 then .QueryState f.address
    else if f.messageType = 2 ∧ d0 = 0x55 then .Goodbye f.address

    else if f.messageType = 4 ∧ d0 = 0x0F then .ReportState f.address .Unconfigured
    else if f.messageType = 4 ∧ d0 = 0x0D then .ReportState f.address .ConfigInProgress
    else if f.messageType = 4 ∧ d0 = 0x07 then .ReportState f.address .ConfigReceived
    else if f.messageType = 4 ∧ d0 = 0x0C then .ReportState f.address .ConfigFailed
    else if f.messageType = 4 ∧ d0 = 0x03 then .ReportState f.address .PixelsInProgress
    else if f.messageType = 4 ∧ d0 = 0x01 then .ReportState f.address .PixelsReceived
    else if f.messageType = 4 ∧ d0 = 0x0B then .ReportState f.address .PixelsFailed
    else if f.messageType = 4 ∧ d0 = 0x10 then .ReportState f.address .PageLoaded
    else if f.messageType = 4 ∧ d0 = 0x13 then .ReportState f.address .PageLoadInProgress
    else if f.messageType = 4 ∧ d0 = 0x12 then .ReportState f.address .PageShown
    else if f.messageType = 4 ∧ d0 = 0x11 then .ReportState f.address .PageShowInProgress
    else if f.messageType = 4 ∧ d0 = 0x08 then .ReportState f.address .ReadyToReset

    else if f.messageType = 3 ∧ d0 = 0xA1 then .RequestOperation f.address .ReceiveConfig
    else if f.messageType = 3 ∧ d0 = 0xA2 then .RequestOperation f.address .ReceivePixels
    else if f.messageType = 3 ∧ d0 = 0xA9 then .RequestOperation f.address .ShowLoadedPage
    else if f.messageType = 3 ∧ d0 = 0xAA then .RequestOperation f.address .LoadNextPage
    else if f.messageType = 3 ∧ d0 = 0xA6 then .RequestOperation f.address .StartReset
    else if f.messageType = 3 ∧ d0 = 0xA7 then .RequestOperation f.address .FinishReset

    else if f.messageType = 5 ∧ d0 = 0x95 then .AckOperation f.address .ReceiveConfig
    else if f.messageType = 5 ∧ d0 = 0x91 then .AckOperation f.address .ReceivePixels
    else if f.messageType = 5 ∧ d0 = 0x96 then .AckOperation f.address .ShowLoadedPage
    else if f.messageType = 5 ∧ d0 = 0x97 then .AckOperation f.address .LoadNextPage
    else if f.messageType = 5 ∧ d0 = 0x93 then .AckOperation f.address .StartReset
    else if f.messageType = 5 ∧ d0 = 0x94 then .AckOperation f.address .FinishReset

    else if f.messageType = 6 ∧ d0 = 0x00 then .PixelsComplete f.address

    else .Unknown f
  | _ :: _ :: _ =>
    if f.messageType = 0 then .SendData f.address f.data else .Unknown f

/-- Embeds `impl From<Message> for Frame`: rebuild the frame for each message. -/
def frameOfMessage : Message → Frame
  | .SendData offset data => ⟨offset, 0, data⟩

  | .DataChunksSent chunks => ⟨chunks, 1, []⟩

  | .Hello a => ⟨a, 2, [0xFF]⟩
  | .Goodbye a => ⟨a, 2, [0x55]⟩
  | .QueryState a => ⟨a, 2, [0x00]⟩

  | .ReportState a .Unconfigured => ⟨a, 4, [0x0F]⟩
  | .ReportState a .ConfigInProgress => ⟨a, 4, [0x0D]⟩
  | .ReportState a .ConfigReceived => ⟨a, 4, [0x07]⟩
  | .ReportState a .ConfigFailed => ⟨a, 4, [0x0C]⟩
  | .ReportState a .PixelsInProgress => ⟨a, 4, [0x03]⟩
  | .ReportState a .PixelsReceived => ⟨a, 4, [0x01]⟩
  | .ReportState a .PixelsFailed => ⟨a, 4, [0x0B]⟩
  | .ReportState a .PageLoaded => ⟨a, 4, [0x10]⟩
  | .ReportState a .PageLoadInProgress => ⟨a, 4, [0x13]⟩
  | .ReportState a .PageShown => ⟨a, 4, [0x12]⟩
  | .ReportState a .PageShowInProgress => ⟨a, 4, [0x11]⟩
  | .ReportState a .ReadyToReset => ⟨a, 4, [0x08]⟩

  | .RequestOperation a .ReceiveConfig => ⟨a, 3, [0xA1]⟩
  | .RequestOperation a .ReceivePixels => ⟨a, 3, [0xA2]⟩
  | .RequestOperation a .ShowLoadedPage => ⟨a, 3, [0xA9]⟩
  | .RequestOperation a .LoadNextPage => ⟨a, 3, [0xAA]⟩
  | .RequestOperation a .StartReset => ⟨a, 3, [0xA6]⟩
  | .RequestOperation a .FinishReset => ⟨a, 3, [0xA7]⟩

  | .AckOperation a .ReceiveConfig => ⟨a, 5, [0x95]⟩
  | .AckOperation a .ReceivePixels => ⟨a, 5, [0x91]⟩
  | .AckOperation a .ShowLoadedPage => ⟨a, 5, [0x96]⟩
  | .AckOperation a .LoadNextPage => ⟨a, 5, [0x97]⟩
  | .AckOperation a .StartReset => ⟨a, 5, [0x93]⟩
  | .AckOperation a .FinishReset => ⟨a, 5, [0x94]⟩

  | .PixelsComplete a => ⟨a, 6, [0x00]⟩

  | .Unknown f => f

set_option maxHeartbeats 1000000 in
/-- C2: converting any frame to a message and back yields the original frame,
including frames that map to the `Unknown` variant. -/
theorem C2_frame_message_roundtrip (f : Frame) :
    frameOfMessage (messageOfFrame f) = f := by
  obtain ⟨a, mt, d⟩ := f
  rcases d with - | ⟨d0, - | ⟨d1, rest⟩⟩
  case mk.nil =>
    by_cases h : mt = 1
    · subst h; rfl
    · unfold messageOfFrame
      dsimp only
      rw [if_neg h]
      rfl
  case mk.cons.cons =>
    by_cases h : mt = 0
    · subst h; rfl
    · unfold messageOfFrame
      dsimp only
      rw [if_neg h]
      rfl
  case mk.cons.nil =>
    by_cases h1 : mt = 2 ∧ d0 = 0xFF
    · obtain ⟨rfl, rfl⟩ := h1; rfl
    by_cases h2 : mt = 2 ∧ d0 = 0x00
    · obtain ⟨rfl, rfl⟩ := h2; rfl
    by_cases h3 : mt = 2 ∧ d0 = 0x55
    · obtain ⟨rfl, rfl⟩ := h3; rfl
    by_cases h4 : mt = 4 ∧ d0 = 0x0F
    · obtain ⟨rfl, rfl⟩ := h4; rfl
    by_cases h5 : mt = 4 ∧ d0 = 0x0D
    · obtain ⟨rfl, rfl⟩ := h5; rfl
    by_cases h6 : mt = 4 ∧ d0 = 0x07
    · obtain ⟨rfl, rfl⟩ := h6; rfl
    by_cases h7 : mt = 4 ∧ d0 = 0x0C
    · obtain ⟨rfl, rfl⟩ := h7; rfl
    by_cases h8 : mt = 4 ∧ d0 = 0x03
    · obtain ⟨rfl, rfl⟩ := h8; rfl
    by_cases h9 : mt = 4 ∧ d0 = 0x01
    · obtain ⟨rfl, rfl⟩ := h9; rfl
    by_cases h10 : mt = 4 ∧ d0 = 0x0B
    · obtain ⟨rfl, rfl⟩ := h10; rfl
    by_cases h11 : mt = 4 ∧ d0 = 0x10
    · obtain ⟨rfl, rfl⟩ := h11; rfl
    by_cases h12 : mt = 4 ∧ d0 = 0x13
    · obtain ⟨rfl, rfl⟩ := h12; rfl
    by_cases h13 : mt = 4 ∧ d0 = 0x12
    · obtain ⟨rfl, rfl⟩ := h13; rfl
    by_cases h14 : mt = 4 ∧ d0 = 0x11
    · obtain ⟨rfl, rfl⟩ := h14; rfl
    by_cases h15 : mt = 4 ∧ d0 = 0x08
    · obtain ⟨rfl, rfl⟩ := h15; rfl
    by_cases h16 : mt = 3 ∧ d0 = 0xA1
    · obtain ⟨rfl, rfl⟩ := h16; rfl
    by_cases h17 : mt = 3 ∧ d0 = 0xA2
    · obtain ⟨rfl, rfl⟩ := h17; rfl
    by_cases h18 : mt = 3 ∧ d0 = 0xA9
    · obtain ⟨rfl, rfl⟩ := h18; rfl
    by_cases h19 : mt = 3 ∧ d0 = 0xAA
    · obtain ⟨rfl, rfl⟩ := h19; rfl
    by_cases h20 : mt = 3 ∧ d0 = 0xA6
    · obtain ⟨rfl, rfl⟩ := h20; rfl
    by_cases h21 : mt = 3 ∧ d0 = 0xA7
    · obtain ⟨rfl, rfl⟩ := h21; rfl
    by_cases h22 : mt = 5 ∧ d0 = 0x95
    · obtain ⟨rfl, rfl⟩ := h22; rfl
    by_cases h23 : mt = 5 ∧ d0 = 0x91
    · obtain ⟨rfl, rfl⟩ := h23; rfl
    by_cases h24 : mt = 5 ∧ d0 = 0x96
    · obtain ⟨rfl, rfl⟩ := h24; rfl
    by_cases h25 : mt = 5 ∧ d0 = 0x97
    · obtain ⟨rfl, rfl⟩ := h25; rfl
    by_cases h26 : mt = 5 ∧ d0 = 0x93
    · obtain ⟨rfl, rfl⟩ := h26; rfl
    by_cases h27 : mt = 5 ∧ d0 = 0x94
    · obtain ⟨rfl, rfl⟩ := h27; rfl
    by_cases h28 : mt = 6 ∧ d0 = 0x00
    · obtain ⟨rfl, rfl⟩ := h28; rfl
    unfold messageOfFrame
    dsimp only
    rw [if_neg h1, if_neg h2, if_neg h3, if_neg h4, if_neg h5, if_neg h6, if_neg h7, if_neg h8, if_neg h9, if_neg h10, if_neg h11, if_neg h12, if_neg h13, if_neg h14, if_neg h15, if_neg h16, if_neg h17, if_neg h18, if_neg h19, if_neg h20, if_neg h21, if_neg h22, if_neg h23, if_neg h24, if_neg h25, if_neg h26, if_neg h27, if_neg h28]
    rfl

/-! ### Sign types (`libs/core/src/sign_type.rs`) -/

/-- Errors of the sign-type parser (`SignTypeError`). -/
inductive SignTypeError where
  | WrongConfigLength (expected actual : Nat)
  | UnknownConfig (bytes : List Nat)
deriving DecidableEq, Repr

/-- The 11 known sign models (`SignType`). -/
inductive SignType where
  | Max3000Front112x16
  | Max3000Front98x16
  | Max3000Side90x7
  | Max3000Rear30x10
  | Max3000Rear23x10
  | Max3000Dash30x7
  | HorizonFront160x16
  | HorizonFront140x16
  | HorizonSide96x8
  | HorizonRear48x16
  | HorizonDash40x12
deriving DecidableEq, Repr

/-- Embeds `SignType::to_bytes`: the fixed 16-byte configuration block of each
model. -/
def signTypeToBytes : SignType → List Nat
  | .Max3000Front112x16 =>
    [0x04, 0x47, 0x00, 0x0F, 0x10, 0x1C, 0x1C, 0x1C, 0x1C, 0x10, 0x00, 0x00,
     0x00, 0x00, 0x00, 0x00]
  | .Max3000Front98x16 =>
    [0x04, 0x4D, 0x00, 0x0D, 0x10, 0x0E, 0x1C, 0x1C, 0x1C, 0x10, 0x00, 0x00,
     0x00, 0x00, 0x00, 0x00]
  | .Max3000Side90x7 =>
    [0x04, 0x20, 0x00, 0x06, 0x07, 0x1E, 0x1E, 0x1E, 0x00, 0x08, 0x00, 0x00,
     0x00, 0x00, 0x00, 0x00]
  | .Max3000Rear23x10 =>
    [0x04, 0x61, 0x00, 0x04, 0x0A, 0x17, 0x00, 0x00, 0x00, 0x10, 0x00, 0x00,
     0x00, 0x00, 0x00, 0x00]
  | .Max3000Rear30x10 =>
    [0x04, 0x62, 0x00, 0x04, 0x0A, 0x1E, 0x00, 0x00, 0x00, 0x10, 0x00, 0x00,
     0x00, 0x00, 0x00, 0x00]
  | .Max3000Dash30x7 =>
    [0x04, 0x26, 0x00, 0x03, 0x07, 0x1E, 0x00, 0x00, 0x00, 0x08, 0x00, 0x00,
     0x00, 0x00, 0x00, 0x00]
  | .HorizonFront160x16 =>
    [0x08, 0xB1, 0x00, 0x15, 0x0C, 0x10, 0x00, 0xA0, 0x04, 0x00, 0x28, 0x00,
     0x00, 0x00, 0x00, 0x00]
  | .HorizonFront140x16 =>
    [0x08, 0xB2, 0x00, 0x12, 0x04, 0x10, 0x00, 0x8C, 0x01, 0x03, 0x14, 0x28,
     0x00, 0x00, 0x00, 0x00]
  | .HorizonSide96x8 =>
    [0x08, 0xB4, 0x00, 0x07, 0x0C, 0x08, 0x00, 0x60, 0x02, 0x00, 0x30, 0x00,
     0x00, 0x00, 0x00, 0x00]
  | .HorizonRear48x16 =>
    [0x08, 0xB5, 0x00, 0x07, 0x0C, 0x10, 0x00, 0x30, 0x01, 0x00, 0x30, 0x00,
     0x00, 0x00, 0x00, 0x00]
  | .HorizonDash40x12 =>
    [0x08, 0xB9, 0x00, 0x06, 0x8C, 0x0C, 0x00, 0x28, 0x01, 0x00, 0x28, 0x00,
     0x04, 0x00, 0x00, 0x00]

/-- The `match (bytes[0], bytes[1])` arms of `SignType::from_bytes`, in
source order. -/
def signTypeDecode (b0 b1 : Nat) : Option SignType :=
  if b0 = 0x4 ∧ b1 = 0x47 then some .Max3000Front112x16
  else if b0 = 0x4 ∧ b1 = 0x4D then some .Max3000Front98x16
  else if b0 = 0x4 ∧ b1 = 0x20 then some .Max3000Side90x7
  else if b0 = 0x4 ∧ b1 = 0x62 then some .Max3000Rear30x10
  else if b0 = 0x4 ∧ b1 = 0x61 then some .Max3000Rear23x10
  else if b0 = 0x4 ∧ b1 = 0x26 then some .Max3000Dash30x7
  else if b0 = 0x8 ∧ b1 = 0xB1 then some .HorizonFront160x16
  else if b0 = 0x8 ∧ b1 = 0xB2 then some .HorizonFront140x16
  else if b0 = 0x8 ∧ b1 = 0xB4 then some .HorizonSide96x8
  else if b0 = 0x8 ∧ b1 = 0xB5 then some .HorizonRear48x16
  else if b0 = 0x8 ∧ b1 = 0xB9 then some .HorizonDash40x12
  else none

/-- Embeds `SignType::from_bytes`: length check, then dispatch on the first two
bytes. -/
def signTypeFromBytes (bytes : List Nat) : Except SignTypeError SignType :=
  if bytes.length ≠ 16 then
    .error (.WrongConfigLength 16 bytes.length)
  else
    match signTypeDecode (bytes.getD 0 0) (bytes.getD 1 0) with
    | some s => .ok s
    | none => .error (.UnknownConfig bytes)

/-- The 11 known `(bytes[0], bytes[1])` pairs, in source order. -/
def knownConfigPairs : List (Nat × Nat) :=
  [(0x4, 0x47), (0x4, 0x4D), (0x4, 0x20), (0x4, 0x62), (0x4, 0x61),
   (0x4, 0x26), (0x8, 0xB1), (0x8, 0xB2), (0x8, 0xB4), (0x8, 0xB5),
   (0x8, 0xB9)]

theorem signTypeDecode_eq_none {b0 b1 : Nat}
    (h : (b0, b1) ∉ knownConfigPairs) : signTypeDecode b0 b1 = none := by
  simp only [knownConfigPairs, List.mem_cons, List.not_mem_nil, or_false,
    Prod.mk.injEq, not_or] at h
  obtain ⟨n1, n2, n3, n4, n5, n6, n7, n8, n9, n10, n11⟩ := h
  unfold signTypeDecode
  rw [if_neg n1, if_neg n2, if_neg n3, if_neg n4, if_neg n5, if_neg n6,
    if_neg n7, if_neg n8, if_neg n9, if_neg n10, if_neg n11]

/-- C6: for every `SignType s`, `from_bytes (to_bytes s) = Ok(s)`; input of a
length other than 16 yields `WrongConfigLength{expected: 16, actual: len}`;
and a 16-byte input whose first two bytes are not one of the 11 known pairs
yields `UnknownConfig` carrying the input bytes. -/
theorem C6_sign_type_spec :
    (∀ s : SignType, signTypeFromBytes (signTypeToBytes s) = .ok s) ∧
    (∀ bytes : List Nat, bytes.length ≠ 16 →
      signTypeFromBytes bytes = .error (.WrongConfigLength 16 bytes.length)) ∧
    (∀ bytes : List Nat, bytes.length = 16 →
      (bytes.getD 0 0, bytes.getD 1 0) ∉ knownConfigPairs →
      signTypeFromBytes bytes = .error (.UnknownConfig bytes)) := by
  refine ⟨?_, ?_, ?_⟩
  · intro s
    cases s <;> rfl
  · intro bytes h
    unfold signTypeFromBytes
    rw [if_pos h]
  · intro bytes hlen hpair
    unfold signTypeFromBytes
    rw [if_neg (by omega), signTypeDecode_eq_none hpair]

theorem C6_sign_type_spec_witness :
    signTypeFromBytes (signTypeToBytes .Max3000Rear30x10) =
      .ok .Max3000Rear30x10 ∧
    signTypeFromBytes [0x04] = .error (.WrongConfigLength 16 1) ∧
    signTypeFromBytes
        [0x10, 0xB9, 0x00, 0x06, 0x8C, 0x0C, 0x00, 0x28, 0x01, 0x00, 0x28,
         0x00, 0x04, 0x00, 0x00, 0x00] =
      .error (.UnknownConfig
        [0x10, 0xB9, 0x00, 0x06, 0x8C, 0x0C, 0x00, 0x28, 0x01, 0x00, 0x28,
         0x00, 0x04, 0x00, 0x00, 0x00]) :=
  ⟨C6_sign_type_spec.1 .Max3000Rear30x10,
   C6_sign_type_spec.2.1 [0x04] (by decide),
   C6_sign_type_spec.2.2
     [0x10, 0xB9, 0x00, 0x06, 0x8C, 0x0C, 0x00, 0x28, 0x01, 0x00, 0x28,
      0x00, 0x04, 0x00, 0x00, 0x00] (by decide) (by decide)⟩

/-! ### Pages (`libs/core/src/page.rs`) -/

/-- Errors relating to pages (`PageError`). -/
inductive PageError where
  | WrongPageLength (width height expected actual : Nat)
deriving DecidableEq, Repr

/-- Embeds `Page::bytes_per_column`: `(height + 7) / 8`. -/
def bytesPerColumn (height : Nat) : Nat :=
  (height + 7) / 8

/-- Embeds `Page::data_bytes`: 4-byte header plus one column-stride per column. -/
def pageDataBytes (width height : Nat) : Nat :=
  4 + width * bytesPerColumn height

/-- Embeds `Page::total_bytes`: `data_bytes` rounded up to a multiple of 16. -/
def pageTotalBytes (width height : Nat) : Nat :=
  (pageDataBytes width height + 15) / 16 * 16

/-- Embeds `Page`: dimensions plus the raw byte buffer. -/
structure Page where
  width : Nat
  height : Nat
  bytes : List Nat
deriving DecidableEq, Repr

/-- Embeds `Page::new`: header `[id, 0x10, 0x00, 0x00]`, data bytes filled with 0,
padding to a multiple of 16 filled with `0xFF` (the two `resize` calls). -/
def Page.new (id width height : Nat) : Page :=
  ⟨width, height,
    [id, 0x10, 0x00, 0x00] ++
      List.replicate (pageDataBytes width height - 4) 0x00 ++
      List.replicate
        (pageTotalBytes width height - pageDataBytes width height) 0xFF⟩

/-- Embeds `Page::from_bytes`: wrap a buffer after checking its length against the
dimensions. -/
def pageFromBytes (width height : Nat) (bytes : List Nat) :
    Except PageError Page :=
  if bytes.length ≠ pageTotalBytes width height then
    .error (.WrongPageLength width height (pageTotalBytes width height)
      bytes.length)
  else
    .ok ⟨width, height, bytes⟩

/-- Embeds `Page::byte_bit_indices`.  The source panics when `x ≥ width` or
`y ≥ height`; theorems about pixels therefore carry in-range hypotheses. -/
def Page.byteBitIndices (p : Page) (x y : Nat) : Nat × Nat :=
  (4 + x * bytesPerColumn p.height + y / 8, y % 8)

/-- Embeds `Page::get_pixel`: mask out one bit of the addressed byte. -/
def Page.getPixel (p : Page) (x y : Nat) : Bool :=
  let mask := 1 <<< (p.byteBitIndices x y).2
  (p.bytes.getD (p.byteBitIndices x y).1 0) &&& mask == mask

/-- Embeds `Page::set_pixel`: or the mask in, or and with its `u8` complement
(`!mask` is `0xFF ^^^ mask`). -/
def Page.setPixel (p : Page) (x y : Nat) (value : Bool) : Page :=
  let mask := 1 <<< (p.byteBitIndices x y).2
  let byte := p.bytes.getD (p.byteBitIndices x y).1 0
  { p with
    bytes := p.bytes.set (p.byteBitIndices x y).1
      (if value then byte ||| mask else byte &&& (0xFF ^^^ mask)) }

/-! #### Page lemmas -/

theorem pageDataBytes_le_total (w h : Nat) :
    pageDataBytes w h ≤ pageTotalBytes w h := by
  unfold pageTotalBytes
  omega

theorem page_new_length (id w h : Nat) :
    (Page.new id w h).bytes.length = pageTotalBytes w h := by
  have h1 := pageDataBytes_le_total w h
  have h2 : 4 ≤ pageDataBytes w h := by unfold pageDataBytes; omega
  simp [Page.new, List.length_append, List.length_replicate]
  omega

theorem byteIndex_lt_dataBytes {w h x y : Nat} (hx : x < w) (hy : y < h) :
    4 + x * bytesPerColumn h + y / 8 < pageDataBytes w h := by
  have hyb : y / 8 < bytesPerColumn h := by
    unfold bytesPerColumn
    omega
  have hxw : x + 1 ≤ w := hx
  have : x * bytesPerColumn h + bytesPerColumn h ≤ w * bytesPerColumn h := by
    calc x * bytesPerColumn h + bytesPerColumn h
        = (x + 1) * bytesPerColumn h := by ring
      _ ≤ w * bytesPerColumn h := Nat.mul_le_mul_right _ hxw
  unfold pageDataBytes
  omega

/-- Testing `a &&& 2^i == 2^i` is testing bit `i`. -/
theorem and_two_pow_beq (a i : Nat) :
    ((a &&& 2 ^ i) == 2 ^ i) = a.testBit i := by
  rw [Nat.and_two_pow]
  have hpos := Nat.two_pow_pos i
  cases h : a.testBit i
  · simp
    omega
  · simp

theorem getD_set_self (l : List Nat) (k : Nat) (b' : Nat) (hk : k < l.length) :
    (l.set k b').getD k 0 = b' := by
  rw [List.getD_eq_getElem _ _ (by rw [List.length_set]; exact hk),
    List.getElem_set_self]

/-- Reading a freshly written pixel gives back the written value, on any page
whose buffer has the correct length. -/
theorem getPixel_setPixel (p : Page) (x y : Nat) (v : Bool)
    (hx : x < p.width) (hy : y < p.height)
    (hlen : p.bytes.length = pageTotalBytes p.width p.height) :
    (p.setPixel x y v).getPixel x y = v := by
  have hk : 4 + x * bytesPerColumn p.height + y / 8 < p.bytes.length := by
    rw [hlen]
    calc 4 + x * bytesPerColumn p.height + y / 8
        < pageDataBytes p.width p.height := byteIndex_lt_dataBytes hx hy
      _ ≤ pageTotalBytes p.width p.height := pageDataBytes_le_total _ _
  have hbit : y % 8 < 8 := Nat.mod_lt _ (by omega)
  cases v
  · unfold Page.setPixel Page.getPixel Page.byteBitIndices
    dsimp only
    rw [if_neg (by simp)]
    rw [getD_set_self _ _ _ hk]
    simp only [Nat.shiftLeft_eq, one_mul]
    rw [and_two_pow_beq]
    rw [show (0xFF : Nat) = 2 ^ 8 - 1 by norm_num]
    rw [Nat.testBit_and, Nat.testBit_xor, Nat.testBit_two_pow_sub_one,
      Nat.testBit_two_pow_self]
    simp [hbit]
  · unfold Page.setPixel Page.getPixel Page.byteBitIndices
    dsimp only
    rw [if_pos rfl]
    rw [getD_set_self _ _ _ hk]
    simp only [Nat.shiftLeft_eq, one_mul]
    rw [and_two_pow_beq, Nat.testBit_or, Nat.testBit_two_pow_self]
    simp

/-- Every pixel of a fresh page is off. -/
theorem getPixel_new (id w h x y : Nat) (hx : x < w) (hy : y < h) :
    (Page.new id w h).getPixel x y = false := by
  have hk := byteIndex_lt_dataBytes (h := h) hx hy
  have h2 : 4 ≤ pageDataBytes w h := by unfold pageDataBytes; omega
  have h4 : ([id, 0x10, 0x00, 0x00] : List Nat).length = 4 := rfl
  have hdlen :
      (([id, 0x10, 0x00, 0x00] : List Nat) ++
        List.replicate (pageDataBytes w h - 4) 0x00).length =
      pageDataBytes w h := by
    rw [List.length_append, h4, List.length_replicate]
    omega
  unfold Page.getPixel Page.new Page.byteBitIndices
  dsimp only
  rw [List.getD_append _ _ _ _ (by rw [hdlen]; omega)]
  rw [List.getD_append_right _ _ _ _ (by rw [h4]; omega)]
  rw [h4]
  have hrep : 4 + x * bytesPerColumn h + y / 8 - 4 <
      (List.replicate (pageDataBytes w h - 4) (0x00 : Nat)).length := by
    rw [List.length_replicate]
    omega
  rw [List.getD_eq_getElem _ _ hrep, List.getElem_replicate]
  simp only [Nat.shiftLeft_eq, one_mul, Nat.zero_and]
  have hpos := Nat.two_pow_pos (y % 8)
  simp
  omega

/-- C5: the buffer of `Page::new(id, w, h)` has length
`round_up_16(4 + w·⌈h/8⌉)`, begins with the header `[id, 0x10, 0x00, 0x00]`,
has every in-range pixel initially off, and after `set_pixel(x, y, v)` the
pixel `(x, y)` reads back as `v`. -/
theorem C5_page_new_spec (id w h x y : Nat) (v : Bool)
    (hx : x < w) (hy : y < h) :
    (Page.new id w h).bytes.length = (4 + w * ((h + 7) / 8) + 15) / 16 * 16 ∧
    (Page.new id w h).bytes.take 4 = [id, 0x10, 0x00, 0x00] ∧
    (Page.new id w h).getPixel x y = false ∧
    ((Page.new id w h).setPixel x y v).getPixel x y = v := by
  refine ⟨page_new_length id w h, ?_, getPixel_new id w h x y hx hy, ?_⟩
  · unfold Page.new
    dsimp only
    rw [show ([id, 0x10, 0x00, 0x00] : List Nat) ++
        List.replicate (pageDataBytes w h - 4) 0x00 ++
        List.replicate (pageTotalBytes w h - pageDataBytes w h) 0xFF =
      [id, 0x10, 0x00, 0x00] ++
        (List.replicate (pageDataBytes w h - 4) 0x00 ++
          List.replicate (pageTotalBytes w h - pageDataBytes w h) 0xFF) by
        simp [List.append_assoc]]
    exact List.take_left' rfl
  · exact getPixel_setPixel (Page.new id w h) x y v hx hy
      (page_new_length id w h)

theorem C5_page_new_spec_witness :
    (Page.new 1 8 8).bytes.length = (4 + 8 * ((8 + 7) / 8) + 15) / 16 * 16 ∧
    (Page.new 1 8 8).bytes.take 4 = [1, 0x10, 0x00, 0x00] ∧
    (Page.new 1 8 8).getPixel 0 0 = false ∧
    ((Page.new 1 8 8).setPixel 0 0 true).getPixel 0 0 = true :=
  C5_page_new_spec 1 8 8 0 0 true (by decide) (by decide)

/-! ### Virtual sign (`libs/testing/src/virtual_sign_bus.rs`) -/

/-- Embeds `Result::ok()`: drop the error of an `Except`. -/
def resultOk {ε α : Type _} : Except ε α → Option α
  | .ok a => some a
  | .error _ => none

/-- The state of one `VirtualSign`.  `data_chunks` is a `u16`; `width` and
`height` are `u32` holding byte-sized values. -/
structure VirtualSign where
  address : Nat
  state : SignState
  pages : List Page
  pendingData : List Nat
  dataChunks : Nat
  width : Nat
  height : Nat
  signType : Option SignType
deriving DecidableEq, Repr

/-- Embeds `VirtualSign::new`. -/
def VirtualSign.new (address : Nat) : VirtualSign :=
  ⟨address, .Unconfigured, [], [], 0, 0, 0, none⟩

/-- Embeds `VirtualSign::flush_pixels`.  The source calls
`Page::from_bytes(..).expect(..)`, which panics when the buffered data does
not match the dimensions; the panic is `none`. -/
def flushPixels (s : VirtualSign) : Option VirtualSign :=
  if s.pendingData = [] then some s
  else
    let data := s.pendingData
    let s1 := { s with pendingData := [] }
    if 0 < s1.width ∧ 0 < s1.height then
      match pageFromBytes s1.width s1.height data with
      | .ok page => some { s1 with pages := s1.pages ++ [page] }
      | .error _ => none
    else
      some s1

/-- Embeds `VirtualSign::reset`. -/
def vsReset (s : VirtualSign) : VirtualSign :=
  { s with
    state := .Unconfigured
    pages := []
    pendingData := []
    dataChunks := 0
    width := 0
    height := 0
    signType := none }

/-- Embeds `VirtualSign::query_state`: reply with the state held before processing;
opportunistically complete an in-progress page load or show. -/
def vsQueryState (s : VirtualSign) : VirtualSign × Option Message :=
  let state := s.state
  let s' :=
    match state with
    | .PageLoadInProgress => { s with state := .PageLoaded }
    | .PageShowInProgress => { s with state := .PageShown }
    | _ => s
  (s', some (.ReportState s.address state))

/-- Embeds `VirtualSign::receive_config`. -/
def vsReceiveConfig (s : VirtualSign) : VirtualSign × Option Message :=
  match s.state with
  | .Unconfigured | .ConfigFailed =>
    ({ s with state := .ConfigInProgress },
     some (.AckOperation s.address .ReceiveConfig))
  | _ => (s, none)

/-- Embeds `VirtualSign::send_data`.  In the configuration branch the `u8` sum
`data[5..9].iter().sum()` appears as `% 256`, and the `u16` increment of
`data_chunks` as `% 65536`. -/
def vsSendData (s : VirtualSign) (offset : Nat) (data : List Nat) :
    Option (VirtualSign × Option Message) :=
  if s.state = .ConfigInProgress ∧ offset = 0 ∧ data.length = 16 then
    if data.getD 0 0 = 0x04 then
      some ({ s with
        signType := resultOk (signTypeFromBytes data)
        width := (data.getD 5 0 + data.getD 6 0 + data.getD 7 0 +
          data.getD 8 0) % 256
        height := data.getD 4 0
        dataChunks := (s.dataChunks + 1) % 65536 }, none)
    else if data.getD 0 0 = 0x08 then
      some ({ s with
        signType := resultOk (signTypeFromBytes data)
        width := data.getD 7 0
        height := data.getD 5 0
        dataChunks := (s.dataChunks + 1) % 65536 }, none)
    else
      some (s, none)
  else if s.state = .PixelsInProgress then
    (if offset = 0 then flushPixels s else some s).map fun s1 =>
      ({ s1 with
        pendingData := s1.pendingData ++ data
        dataChunks := (s1.dataChunks + 1) % 65536 }, none)
  else
    some (s, none)

/-- Embeds `VirtualSign::data_chunks_sent`. -/
def vsDataChunksSent (s : VirtualSign) (chunks : Nat) :
    Option (VirtualSign × Option Message) :=
  let s1 :=
    if s.dataChunks = chunks then
      match s.state with
      | .ConfigInProgress => { s with state := .ConfigReceived }
      | .PixelsInProgress => { s with state := .PixelsReceived }
      | _ => s
    else
      match s.state with
      | .ConfigInProgress => { s with state := .ConfigFailed }
      | .PixelsInProgress => { s with state := .PixelsFailed }
      | _ => s
  (flushPixels s1).map fun s2 => ({ s2 with dataChunks := 0 }, none)

/-- Embeds `VirtualSign::receive_pixels`. -/
def vsReceivePixels (s : VirtualSign) : VirtualSign × Option Message :=
  match s.state with
  | .ConfigReceived | .PixelsFailed | .PageLoaded | .PageLoadInProgress
  | .PageShown | .PageShowInProgress =>
    ({ s with state := .PixelsInProgress, pages := [] },
     some (.AckOperation s.address .ReceivePixels))
  | _ => (s, none)

/-- Embeds `VirtualSign::pixels_complete`. -/
def vsPixelsComplete (s : VirtualSign) : VirtualSign × Option Message :=
  if s.state = .PixelsReceived then
    ({ s with state := .PageLoaded }, none)
  else
    (s, none)

/-- Embeds `VirtualSign::show_loaded_page`. -/
def vsShowLoadedPage (s : VirtualSign) : VirtualSign × Option Message :=
  if s.state = .PageLoaded then
    ({ s with state := .PageShowInProgress },
     some (.AckOperation s.address .ShowLoadedPage))
  else
    (s, none)

/-- Embeds `VirtualSign::load_next_page`. -/
def vsLoadNextPage (s : VirtualSign) : VirtualSign × Option Message :=
  if s.state = .PageShown then
    ({ s with state := .PageLoadInProgress },
     some (.AckOperation s.address .LoadNextPage))
  else
    (s, none)

/-- Embeds `VirtualSign::start_reset`. -/
def vsStartReset (s : VirtualSign) : VirtualSign × Option Message :=
  ({ s with state := .ReadyToReset },
   some (.AckOperation s.address .StartReset))

/-- Embeds `VirtualSign::finish_reset`. -/
def vsFinishReset (s : VirtualSign) : VirtualSign × Option Message :=
  if s.state = .ReadyToReset then
    (vsReset s, some (.AckOperation s.address .FinishReset))
  else
    (s, none)

/-- Embeds `VirtualSign::goodbye`. -/
def vsGoodbye (s : VirtualSign) : VirtualSign × Option Message :=
  (vsReset s, none)

/-- Embeds `VirtualSign::process_message`: route an accepted message to its handler;
a message that is not accepted leaves the sign unchanged and returns no
reply.  The result is `none` when the handler panics (page flush). -/
def processMessage (s : VirtualSign) (m : Message) :
    Option (VirtualSign × Option Message) :=
  match m with
  | .Hello a => if a = s.address then some (vsQueryState s) else some (s, none)
  | .QueryState a =>
    if a = s.address then some (vsQueryState s) else some (s, none)
  | .RequestOperation a op =>
    if a = s.address then
      match op with
      | .ReceiveConfig => some (vsReceiveConfig s)
      | .ReceivePixels => some (vsReceivePixels s)
      | .ShowLoadedPage => some (vsShowLoadedPage s)
      | .LoadNextPage => some (vsLoadNextPage s)
      | .StartReset => some (vsStartReset s)
      | .FinishReset => some (vsFinishReset s)
    else some (s, none)
  | .SendData offset data => vsSendData s offset data
  | .DataChunksSent chunks => vsDataChunksSent s chunks
  | .PixelsComplete a =>
    if a = s.address then some (vsPixelsComplete s) else some (s, none)
  | .Goodbye a => if a = s.address then some (vsGoodbye s) else some (s, none)
  | .ReportState _ _ => some (s, none)
  | .AckOperation _ _ => some (s, none)
  | .Unknown _ => some (s, none)

/-! ### Claims C10, C4 and C9: virtual sign behaviour -/

/-- The state update `query_state` performs: an in-progress page load or show
completes, every other state is kept. -/
def queryAdvance (st : SignState) : SignState :=
  if st = .PageLoadInProgress then .PageLoaded
  else if st = .PageShowInProgress then .PageShown
  else st

/-- C10: `Hello` or `QueryState` addressed to a virtual sign replies
`ReportState` carrying the state held before processing; the stored state
becomes `PageLoaded`/`PageShown` when it was the corresponding in-progress
state and is otherwise unchanged, all other fields are left unchanged, and
the completed state is observable on a second query. -/
theorem C10_query_state_spec (s : VirtualSign) (m : Message)
    (hm : m = .Hello s.address ∨ m = .QueryState s.address) :
    processMessage s m =
      some ({ s with state := queryAdvance s.state },
        some (.ReportState s.address s.state)) ∧
    (processMessage { s with state := queryAdvance s.state } m).map Prod.snd =
      some (some (.ReportState s.address (queryAdvance s.state))) := by
  obtain ⟨a, st, pg, pend, dc, w, hgt, sty⟩ := s
  rcases hm with rfl | rfl <;> cases st <;>
    simp [processMessage, vsQueryState, queryAdvance]

theorem C10_query_state_spec_witness :
    (processMessage { VirtualSign.new 7 with state := .PageLoadInProgress }
        (.QueryState 7) =
      some ({ VirtualSign.new 7 with state := .PageLoaded },
        some (.ReportState 7 .PageLoadInProgress))) ∧
    (processMessage { VirtualSign.new 7 with state := .PageLoaded }
        (.QueryState 7)).map Prod.snd =
      some (some (.ReportState 7 .PageLoaded)) :=
  C10_query_state_spec { VirtualSign.new 7 with state := .PageLoadInProgress }
    (.QueryState 7) (Or.inr rfl)

/-- The flush succeeds: the buffer is empty, or a dimension is zero (nothing
is built), or the buffered bytes exactly fill a page. -/
def FlushOK (s : VirtualSign) : Prop :=
  s.pendingData = [] ∨ s.width = 0 ∨ s.height = 0 ∨
    s.pendingData.length = pageTotalBytes s.width s.height

instance (s : VirtualSign) : Decidable (FlushOK s) := by
  unfold FlushOK; infer_instance

theorem flushPixels_spec (a : Nat) (st : SignState) (pg : List Page)
    (pend : List Nat) (dc w hgt : Nat) (sty : Option SignType)
    (hf : pend = [] ∨ w = 0 ∨ hgt = 0 ∨
      pend.length = pageTotalBytes w hgt) :
    flushPixels ⟨a, st, pg, pend, dc, w, hgt, sty⟩ =
      some ⟨a, st,
        pg ++ (if pend ≠ [] ∧ 0 < w ∧ 0 < hgt then [⟨w, hgt, pend⟩] else []),
        [], dc, w, hgt, sty⟩ := by
  unfold flushPixels
  by_cases hp : pend = []
  · subst hp
    simp
  · rw [if_neg hp]
    dsimp only
    by_cases hd : 0 < w ∧ 0 < hgt
    · rw [if_pos hd]
      have hlen : pend.length = pageTotalBytes w hgt := by
        rcases hf with h | h | h | h
        · exact absurd h hp
        · omega
        · omega
        · exact h
      unfold pageFromBytes
      rw [if_neg (by omega)]
      simp [hp, hd]
    · rw [if_neg hd]
      simp [hp, hd]

/-- C4: `DataChunksSent(count)` returns no reply; when `count` equals the
`data_chunks` counter the state advances `ConfigInProgress→ConfigReceived` or
`PixelsInProgress→PixelsReceived`, otherwise to the corresponding `*Failed`;
every other state is kept; in all cases the pending pixel bytes are flushed
(appended as a page when non-empty and the dimensions are set) and
`data_chunks` is reset to 0. -/
theorem C4_data_chunks_sent_spec (s : VirtualSign) (c : Nat)
    (hf : FlushOK s) :
    processMessage s (.DataChunksSent c) =
      some ({ s with
        state :=
          if c = s.dataChunks then
            (if s.state = .ConfigInProgress then .ConfigReceived
             else if s.state = .PixelsInProgress then .PixelsReceived
             else s.state)
          else
            (if s.state = .ConfigInProgress then .ConfigFailed
             else if s.state = .PixelsInProgress then .PixelsFailed
             else s.state)
        pendingData := []
        dataChunks := 0
        pages := s.pages ++
          (if s.pendingData ≠ [] ∧ 0 < s.width ∧ 0 < s.height then
            [⟨s.width, s.height, s.pendingData⟩] else []) }, none) := by
  obtain ⟨a, st, pg, pend, dc, w, hgt, sty⟩ := s
  have hf' : pend = [] ∨ w = 0 ∨ hgt = 0 ∨
      pend.length = pageTotalBytes w hgt := hf
  show vsDataChunksSent _ c = _
  unfold vsDataChunksSent
  dsimp only
  by_cases hc : dc = c
  · rw [if_pos hc]
    subst hc
    cases st <;>
      (dsimp only; rw [flushPixels_spec _ _ _ _ _ _ _ _ hf']; simp)
  · rw [if_neg hc]
    have hc' : ¬ (c = dc) := fun h => hc h.symm
    cases st <;>
      (dsimp only; rw [flushPixels_spec _ _ _ _ _ _ _ _ hf']; simp [hc'])

theorem C4_data_chunks_sent_spec_witness :
    processMessage
        { VirtualSign.new 3 with state := .ConfigInProgress, dataChunks := 1 }
        (.DataChunksSent 1) =
      some ({ VirtualSign.new 3 with state := .ConfigReceived }, none) :=
  C4_data_chunks_sent_spec
    { VirtualSign.new 3 with state := .ConfigInProgress, dataChunks := 1 }
    1 (by decide)

/-- C9 counterexample: with two `0xFF` sub-panel width bytes the recorded
width is the `u8` wrapping sum `254`, not the mathematical sum `510` the
claim states. -/
theorem C9_send_data_width_counterexample :
    (processMessage { VirtualSign.new 3 with state := .ConfigInProgress }
        (.SendData 0
          [4, 0, 0, 0, 0, 255, 255, 0, 0, 0, 0, 0, 0, 0, 0, 0])).map
      (fun r => r.1.width) = some 254 ∧
    (254 : Nat) ≠ 255 + 255 + 0 + 0 := by
  constructor
  · rfl
  · decide

/-- C9 (amended): a sign in `ConfigInProgress` accepting
`SendData(0, data)` with a 16-byte block records, for first byte `0x04`,
`height = data[4]` and `width = (data[5]+data[6]+data[7]+data[8]) mod 256`
(the `u8` wrapping sum); for first byte `0x08`, `height = data[5]` and
`width = data[7]`; any other first byte leaves the sign unchanged.  In every
case there is no reply. -/
theorem C9_send_data_config_spec (s : VirtualSign) (offset : Nat)
    (data : List Nat) (h1 : s.state = .ConfigInProgress) (h2 : offset = 0)
    (h3 : data.length = 16) :
    (data.getD 0 0 = 0x04 →
      processMessage s (.SendData offset data) =
        some ({ s with
          signType := resultOk (signTypeFromBytes data)
          width := (data.getD 5 0 + data.getD 6 0 + data.getD 7 0 +
            data.getD 8 0) % 256
          height := data.getD 4 0
          dataChunks := (s.dataChunks + 1) % 65536 }, none)) ∧
    (data.getD 0 0 = 0x08 →
      processMessage s (.SendData offset data) =
        some ({ s with
          signType := resultOk (signTypeFromBytes data)
          width := data.getD 7 0
          height := data.getD 5 0
          dataChunks := (s.dataChunks + 1) % 65536 }, none)) ∧
    (data.getD 0 0 ≠ 0x04 → data.getD 0 0 ≠ 0x08 →
      processMessage s (.SendData offset data) = some (s, none)) := by
  subst h2
  show _ ∧ _ ∧ _
  have hstep : processMessage s (.SendData 0 data) = vsSendData s 0 data := rfl
  rw [hstep]
  unfold vsSendData
  rw [if_pos ⟨h1, rfl, h3⟩]
  refine ⟨?_, ?_, ?_⟩
  · intro hb
    rw [if_pos hb]
  · intro hb
    rw [if_neg (by omega), if_pos hb]
  · intro hb4 hb8
    rw [if_neg hb4, if_neg hb8]

theorem C9_send_data_config_spec_witness :
    processMessage { VirtualSign.new 3 with state := .ConfigInProgress }
      (.SendData 0
        [0x04, 0x99, 0x00, 0x0F, 0x09, 0x1C, 0x1C, 0x00, 0x00, 0x10, 0x00,
         0x00, 0x00, 0x00, 0x00, 0x00]) =
      some ({ VirtualSign.new 3 with
        state := .ConfigInProgress
        signType := none
        width := 56
        height := 9
        dataChunks := 1 }, none) :=
  (C9_send_data_config_spec
    { VirtualSign.new 3 with state := .ConfigInProgress } 0
    [0x04, 0x99, 0x00, 0x0F, 0x09, 0x1C, 0x1C, 0x00, 0x00, 0x10, 0x00,
     0x00, 0x00, 0x00, 0x00, 0x00] rfl rfl (by decide)).1 (by decide)

/-! ### Controller data-send-with-retry (`src/sign.rs`, `Sign::send_data`)

The bus collaborator is modelled as a script: a list of replies consumed one
per `exchange` call (the spec's scripted test double).  `UnexpectedResponse`
carries the expected and actual replies themselves rather than their
`format!("{:?}")` renderings. -/

/-- Errors of the controller (`SignError`).  `Bus` wraps a bus failure; the
script bus never fails. -/
inductive SignError where
  | Bus
  | UnexpectedResponse (expected actual : Option Message)
deriving DecidableEq, Repr

/-- A scripted bus: the replies it will give, in order. -/
abbrev Script := List (Option Message)

/-- One bus exchange against a script: pop the next scripted reply. -/
def exchange (sc : Script) : Option Message × Script :=
  match sc with
  | [] => (none, [])
  | r :: rest => (r, rest)

/-- Embeds `verify_response`: fail with `UnexpectedResponse` unless the response
equals the expected one. -/
def verifyResponse (expected response : Option Message) :
    Except SignError Unit :=
  if response = expected then .ok ()
  else .error (.UnexpectedResponse expected response)

/-- Embeds `Sign::send_message_expect_response`: exchange and verify. -/
def sendMessageExpect (sc : Script) (message : Message)
    (expected : Option Message) : Except SignError Script :=
  match verifyResponse expected (exchange sc).1 with
  | .ok _ => .ok (exchange sc).2
  | .error e => .error e

/-- Embeds `slice::chunks(16)`: split a byte slice into 16-byte pieces (the last may
be shorter); an empty slice yields no chunks. -/
def chunks16 (l : List Nat) : List (List Nat) :=
  if l = [] then [] else l.take 16 :: chunks16 (l.drop 16)
termination_by l.length
decreasing_by
  rename_i h
  rw [List.length_drop]
  have hl : 0 < l.length := List.length_pos.mpr h
  omega

/-- The inner chunk loop of one item: send each 16-byte chunk as
`SendData(Offset((i * 16) as u16), chunk)` expecting no reply, counting
chunks in a `u16`. -/
def sendItemChunks (sc : Script) (cs : List (List Nat)) (i count : Nat) :
    Except SignError (Script × Nat) :=
  match cs with
  | [] => .ok (sc, count)
  | chunk :: rest =>
    match sendMessageExpect sc (.SendData ((i * 16) % 65536) chunk) none with
    | .error e => .error e
    | .ok sc' => sendItemChunks sc' rest (i + 1) ((count + 1) % 65536)

/-- The outer loop over the input slices, accumulating the global chunk
count. -/
def sendAllChunks (sc : Script) (items : List (List Nat)) (count : Nat) :
    Except SignError (Script × Nat) :=
  match items with
  | [] => .ok (sc, count)
  | item :: rest =>
    match sendItemChunks sc (chunks16 item) 0 count with
    | .error e => .error e
    | .ok (sc', count') => sendAllChunks sc' rest count'

/-- One iteration of the `Sign::send_data` retry loop, with the current
attempt number (starting at 1, `MAX_ATTEMPTS = 3`): request the operation
expecting an ack, send all chunks, send `DataChunksSent(count)` expecting no
reply, query state; retry on the failure state while attempts remain,
otherwise verify the success state. -/
def sendDataGo (addr : Nat) (op : SignOp) (success failure : SignState)
    (items : List (List Nat)) (attempts : Nat) (sc : Script) :
    Except SignError Script :=
  match sendMessageExpect sc (.RequestOperation addr op)
      (some (.AckOperation addr op)) with
  | .error e => .error e
  | .ok sc1 =>
    match sendAllChunks sc1 items 0 with
    | .error e => .error e
    | .ok (sc2, chunksSent) =>
      match sendMessageExpect sc2 (.DataChunksSent chunksSent) none with
      | .error e => .error e
      | .ok sc3 =>
        if h : (exchange sc3).1 = some (.ReportState addr failure) ∧
            attempts < 3 then
          sendDataGo addr op success failure items (attempts + 1)
            (exchange sc3).2
        else
          match verifyResponse (some (.ReportState addr success))
              (exchange sc3).1 with
          | .ok _ => .ok (exchange sc3).2
          | .error e => .error e
termination_by 3 - attempts
decreasing_by omega

/-- Embeds `Sign::send_data` starts at attempt 1. -/
def sendData (addr : Nat) (op : SignOp) (success failure : SignState)
    (items : List (List Nat)) (sc : Script) : Except SignError Script :=
  sendDataGo addr op success failure items 1 sc

/-- The total number of 16-byte chunks of all items. -/
def totalChunks (items : List (List Nat)) : Nat :=
  (items.map (fun item => (chunks16 item).length)).sum

/-- The scripted replies of one attempt: the ack, one `None` per data chunk,
a `None` for `DataChunksSent`, then the reply to the state query. -/
def attemptScript (addr : Nat) (op : SignOp) (items : List (List Nat))
    (reply : Option Message) : Script :=
  some (.AckOperation addr op) ::
    (List.replicate (totalChunks items) none ++ [none, reply])

/-- Exchanging against a script whose head is exactly the expected reply
succeeds and consumes it. -/
theorem sendMessageExpect_hit (r : Option Message) (rest : Script)
    (m : Message) : sendMessageExpect (r :: rest) m r = .ok rest := by
  simp [sendMessageExpect, exchange, verifyResponse]

theorem sendItemChunks_script (cs : List (List Nat)) (i count : Nat)
    (r : Script) (hcount : count < 65536) :
    sendItemChunks (List.replicate cs.length none ++ r) cs i count =
      .ok (r, (count + cs.length) % 65536) := by
  induction cs generalizing i count r with
  | nil =>
    simp only [List.length_nil, List.replicate_zero, List.nil_append,
      sendItemChunks, List.length_nil]
    rw [Nat.add_zero, Nat.mod_eq_of_lt hcount]
  | cons c rest ih =>
    simp only [List.length_cons, List.replicate_succ, List.cons_append,
      sendItemChunks]
    rw [sendMessageExpect_hit]
    dsimp only
    rw [ih (i + 1) ((count + 1) % 65536) r (Nat.mod_lt _ (by omega))]
    simp only [Except.ok.injEq, Prod.mk.injEq, true_and]
    omega

theorem sendAllChunks_script (items : List (List Nat)) (count : Nat)
    (r : Script) (hcount : count < 65536) :
    sendAllChunks (List.replicate (totalChunks items) none ++ r) items count =
      .ok (r, (count + totalChunks items) % 65536) := by
  induction items generalizing count r with
  | nil =>
    simp only [totalChunks, List.map_nil, List.sum_nil, List.replicate_zero,
      List.nil_append, sendAllChunks]
    rw [Nat.add_zero, Nat.mod_eq_of_lt hcount]
  | cons item rest ih =>
    have h1 : totalChunks (item :: rest) =
        (chunks16 item).length + totalChunks rest := by
      simp [totalChunks]
    rw [h1, List.replicate_add, List.append_assoc]
    simp only [sendAllChunks]
    rw [sendItemChunks_script _ 0 count _ hcount]
    dsimp only
    rw [ih _ _ (Nat.mod_lt _ (by omega))]
    simp only [Except.ok.injEq, Prod.mk.injEq, true_and]
    omega

/-- Running one scripted attempt: consume the attempt's replies, then retry,
succeed, or fail according to the query reply and the attempt number. -/
theorem sendDataGo_attempt (addr : Nat) (op : SignOp)
    (success failure : SignState) (items : List (List Nat))
    (reply : Option Message) (tail : Script) (attempts : Nat) :
    sendDataGo addr op success failure items attempts
        (attemptScript addr op items reply ++ tail) =
      if reply = some (.ReportState addr failure) ∧ attempts < 3 then
        sendDataGo addr op success failure items (attempts + 1) tail
      else if reply = some (.ReportState addr success) then .ok tail
      else .error (.UnexpectedResponse
        (some (.ReportState addr success)) reply) := by
  rw [sendDataGo]
  simp only [attemptScript, List.cons_append]
  rw [sendMessageExpect_hit]
  dsimp only
  rw [List.append_assoc]
  rw [sendAllChunks_script _ _ _ (by omega)]
  dsimp only
  simp only [List.cons_append]
  rw [sendMessageExpect_hit]
  dsimp only
  simp only [exchange, List.nil_append]
  by_cases h1 : reply = some (.ReportState addr failure) ∧ attempts < 3
  · rw [dif_pos h1, if_pos h1]
  · rw [dif_neg h1, if_neg h1]
    by_cases h2 : reply = some (.ReportState addr success)
    · simp [verifyResponse, h2]
    · simp [verifyResponse, h2]

/-- C3: the data-send routine makes at most 3 attempts, each consisting of
the operation request, the data chunks, `DataChunksSent` and a state query;
a success reply returns `Ok`, a failure reply retries while attempts remain,
and any other reply — or a failure reply on the third attempt — yields
`UnexpectedResponse`. -/
theorem C3_send_data_retry_spec (addr : Nat) (op : SignOp)
    (success failure : SignState) (items : List (List Nat))
    (r1 r2 r3 : Option Message) (rest : Script) :
    sendData addr op success failure items
        (attemptScript addr op items r1 ++ (attemptScript addr op items r2 ++
          (attemptScript addr op items r3 ++ rest))) =
      if r1 = some (.ReportState addr failure) then
        if r2 = some (.ReportState addr failure) then
          if r3 = some (.ReportState addr success) then .ok rest
          else .error (.UnexpectedResponse
            (some (.ReportState addr success)) r3)
        else if r2 = some (.ReportState addr success) then
          .ok (attemptScript addr op items r3 ++ rest)
        else .error (.UnexpectedResponse
          (some (.ReportState addr success)) r2)
      else if r1 = some (.ReportState addr success) then
        .ok (attemptScript addr op items r2 ++
          (attemptScript addr op items r3 ++ rest))
      else .error (.UnexpectedResponse
        (some (.ReportState addr success)) r1) := by
  unfold sendData
  rw [sendDataGo_attempt]
  by_cases h1 : r1 = some (.ReportState addr failure)
  · rw [if_pos ⟨h1, by omega⟩, if_pos h1]
    rw [sendDataGo_attempt]
    by_cases h2 : r2 = some (.ReportState addr failure)
    · rw [if_pos ⟨h2, by omega⟩, if_pos h2]
      rw [sendDataGo_attempt]
      rw [if_neg (fun hh => by omega)]
    · rw [if_neg (fun hh => h2 hh.1), if_neg h2]
  · rw [if_neg (fun hh => h1 hh.1), if_neg h1]

end Flipdot
